import Mathlib

/-!
# testdriver: the concurrency ramp of `concurrence.Tester`

A shallow embedding of `src/concurrence/tester.go` (and of the part of
`src/main.go` that builds the `Tester`), followed by theorems about it.

Modelling conventions.

* Go `uint` values are natural numbers below `2 ^ w`, where `w` is the word
  size of the platform (32 or 64); every `uint` addition is taken modulo
  `2 ^ w`.  `uint16` conversions are taken modulo `2 ^ 16`.
* `Run` talks to three collaborators: the context (cancellation), the remote
  stream-tester (HTTP) and the alert callback.  What the collaborators answer
  is given to the model as a script, one `IterScript` per iteration of the
  outer loop; what `Run` does to them is returned as a trace of `Action`s.
  A script is finite: when it is used up while `Run` is still waiting for an
  answer, the outcome is `Outcome.pending` (the call has not returned).
* `float64` is only ever compared.  `minSuccessRate` is any `float64`
  (`Float64`, with NaN and the infinities); a success rate decoded from a JSON
  body is a finite number and is kept as the rational it denotes.
* The trace of a pending outcome is what `Run` has done up to the last answer
  the script gave it.
* `log.Printf` output is not modelled.
-/

namespace Concurrence

/-! ## Data of the external `model` package -/

/-- Modelled from the spec: the Go type `model.StartStreamsReq` of the external
stream-tester package is not part of the repository; its fields are the ones
the composite literal in `Tester.start` sets (spec section 6, Start request). -/
structure StartStreamsReq where
  Host : String
  MHost : String
  FileName : String
  RTMP : Nat
  Media : Nat
  Repeat : Nat
  Simultaneous : Nat
  ProfilesNum : Nat
  MeasureLatency : Bool
  HTTPIngest : Bool
  deriving DecidableEq, Repr

/-- Modelled from the spec: the Go type `model.StartStreamsRes` of the external
stream-tester package; a success flag and the assigned batch identifier
(spec section 6, Start response). -/
structure StartStreamsRes where
  Success : Bool
  BaseManifestID : String
  deriving DecidableEq, Repr

/-- Modelled from the spec: the Go type `model.Stats` of the external
stream-tester package; the two fields `Run` reads (spec section 3,
StatsSnapshot).  The zero value is `&model.Stats{}`. -/
structure Stats where
  Finished : Bool
  SuccessRate : ℚ
  deriving DecidableEq, Repr

/-- The value of `&model.Stats{}`. -/
def Stats.zero : Stats := ⟨false, 0⟩

/-- A Go `float64` as far as comparisons see it. -/
inductive Float64 where
  | NaN
  | negInf
  | finite (q : ℚ)
  | posInf
  deriving DecidableEq, Repr

/-- Go's `x > y` for a finite `x` and an arbitrary `float64` `y`. -/
def Float64.gt (x : ℚ) : Float64 → Bool
  | .NaN => false
  | .negInf => true
  | .finite q => decide (q < x)
  | .posInf => false

/-- Go's `x <= y` for a finite `x` and an arbitrary `float64` `y`. -/
def Float64.le (x : ℚ) : Float64 → Bool
  | .NaN => false
  | .negInf => false
  | .finite q => decide (x ≤ q)
  | .posInf => true

/-- What a Go function of type `(*T, error)` hands back after an HTTP exchange:
an error (transport, read or decode), or the decoded body. -/
inductive Reply (α : Type) where
  | failure (err : String)
  | decoded (a : α)
  deriving DecidableEq, Repr

/-! ## `Tester` -/

/-- The struct `Tester` (the `httpClient` and the `alert` callback are the
environment of the model). -/
structure Tester where
  host : String
  port : Nat
  rtmpHost : String
  rtmpPort : Nat
  mediaHost : String
  mediaPort : Nat
  checkInterval : Int
  minSuccessRate : Float64
  numStreamsInit : Nat
  numStreamsStep : Nat
  baseManifestID : String
  done : Bool
  deriving DecidableEq, Repr

/-- The constructor `NewTester`. -/
def NewTester (host rtmpHost mediaHost : String) (port rtmpPort mediaPort : Nat)
    (checkInterval : Int) (minSuccessRate : Float64)
    (numStreamsInit numStreamsStep : Nat) : Tester :=
  { host := host
    port := port % 2 ^ 16
    rtmpHost := rtmpHost
    rtmpPort := rtmpPort % 2 ^ 16
    mediaHost := mediaHost
    mediaPort := mediaPort % 2 ^ 16
    checkInterval := checkInterval
    minSuccessRate := minSuccessRate
    numStreamsInit := numStreamsInit
    numStreamsStep := numStreamsStep
    baseManifestID := ""
    done := false }

/-- The method `Tester.IsRunning`. -/
def IsRunning (t : Tester) : Bool := t.baseManifestID != "" && !t.done

/-- The method `Tester.GetManifestID`. -/
def GetManifestID (t : Tester) : String := t.baseManifestID

/-- The struct `Result`; `Stats` is a pointer, `none` is `nil`. -/
structure Result where
  NumStreams : Nat
  Stats : Option Stats
  deriving DecidableEq, Repr

/-- The value of `&Result{}`. -/
def Result.zero : Result := ⟨0, none⟩

/-- The errors `Run` builds with `fmt.Errorf`. -/
inductive RunError where
  | contextCancelled
  | startStreamFailed (err : String)
  | startStreamNoSuccess
  | getStatsFailed (err : String)
  deriving DecidableEq, Repr

/-- The text of a `RunError`. -/
def RunError.message : RunError → String
  | .contextCancelled => "context cancelled"
  | .startStreamFailed err => "start stream failed: " ++ err
  | .startStreamNoSuccess => "start stream failed: success = false"
  | .getStatsFailed err => "get stats failed: " ++ err

/-- What `Run` does to its collaborators, in order. -/
inductive Action where
  | alert (s : String) (r : Result)
  | startStreams (url : String) (req : StartStreamsReq) (reply : Reply StartStreamsRes)
  | getStats (url : String) (reply : Reply Stats)
  deriving DecidableEq, Repr

/-- The request body `Tester.start` builds for `NumStreams` streams. -/
def startStreamReq (t : Tester) (NumStreams : Nat) : StartStreamsReq :=
  { Host := t.rtmpHost
    MHost := t.mediaHost
    FileName := "official_test_source_2s_keys_24pfs.mp4"
    RTMP := t.rtmpPort
    Media := t.mediaPort
    Repeat := 1
    Simultaneous := NumStreams
    ProfilesNum := 2
    MeasureLatency := false
    HTTPIngest := false }

/-- The URL `Tester.start` posts to. -/
def startURL (t : Tester) : String :=
  "http://" ++ t.host ++ ":" ++ toString t.port ++ "/start_streams"

/-- The URL `Tester.stats` gets. -/
def statsURL (t : Tester) : String :=
  "http://" ++ t.host ++ ":" ++ toString t.port ++ "/stats?latencies&base_manifest_id="
    ++ t.baseManifestID

/-- The method `Tester.start`: the tester afterwards, the action done and the
returned pair.  Only a decoded response is stored in `baseManifestID`. -/
def start (t : Tester) (NumStreams : Nat) (reply : Reply StartStreamsRes) :
    Tester × Action × Reply StartStreamsRes :=
  let act := Action.startStreams (startURL t) (startStreamReq t NumStreams) reply
  match reply with
  | .failure err => (t, act, .failure err)
  | .decoded response => ({ t with baseManifestID := response.BaseManifestID }, act, .decoded response)

/-- The method `Tester.stats`. -/
def stats (t : Tester) (reply : Reply Stats) : Action × Reply Stats :=
  (Action.getStats (statsURL t) reply, reply)

/-! ## `Run` -/

/-- One wake-up of the `select` inside the polling loop. -/
inductive SelectEvent where
  | ctxDone
  | tick (reply : Reply Stats)
  deriving DecidableEq, Repr

/-- What the collaborators answer during one iteration of the outer loop:
whether `ctx.Done()` is closed at the non-blocking check, the reply to the
start request, and the wake-ups of the polling `select`, in order. -/
structure IterScript where
  cancelled : Bool
  startReply : Reply StartStreamsRes
  polls : List SelectEvent
  deriving DecidableEq, Repr

/-- How a call of `Run` stands: it returned a pair, it panicked, or it is
still waiting for the collaborators (the script is used up). -/
inductive Outcome where
  | returned (r : Result) (err : Option RunError)
  | panicked (msg : String)
  | pending
  deriving DecidableEq, Repr

/-- The tester, the actions done so far and the outcome. -/
structure Final where
  tester : Tester
  trace : List Action
  outcome : Outcome
  deriving DecidableEq, Repr

/-- Puts the actions `acts` in front of the trace of `f`. -/
def Final.after (acts : List Action) (f : Final) : Final :=
  { f with trace := acts ++ f.trace }

/-- How the labelled polling loop ends. -/
inductive PollOutcome where
  | cancelled
  | failed (err : String)
  | finished (s : Stats)
  | blocked
  deriving DecidableEq, Repr

/-- The loop labelled `loop` in `Run`: one `select` per event. -/
def pollLoop (t : Tester) : List SelectEvent → List Action × PollOutcome
  | [] => ([], .blocked)
  | .ctxDone :: _ => ([], .cancelled)
  | .tick reply :: rest =>
    match stats t reply with
    | (act, .failure err) => ([act], .failed err)
    | (act, .decoded s) =>
      if s.Finished then ([act], .finished s)
      else
        let (acts, o) := pollLoop t rest
        (act :: acts, o)

/-- The outer `for` loop of `Run`, from its condition on. -/
def runLoop (w : Nat) (t : Tester) (started : Bool) (NumStreams : Nat) (stats : Stats) :
    List IterScript → Final
  | [] =>
    if !started || Float64.gt stats.SuccessRate t.minSuccessRate then
      ⟨t, [], .pending⟩
    else
      ⟨{ t with done := true }, [], .returned ⟨NumStreams, some stats⟩ none⟩
  | it :: rest =>
    if !started || Float64.gt stats.SuccessRate t.minSuccessRate then
      let NumStreams := (NumStreams + t.numStreamsStep) % 2 ^ w
      let alert := Action.alert "begin iteration: " ⟨NumStreams, some stats⟩
      if it.cancelled then
        ⟨t, [alert], .returned Result.zero (some .contextCancelled)⟩
      else
        match start t NumStreams it.startReply with
        | (t, act, .failure err) =>
          ⟨t, [alert, act], .returned Result.zero (some (.startStreamFailed err))⟩
        | (t, act, .decoded startStreamResponse) =>
          if !startStreamResponse.Success then
            ⟨t, [alert, act], .returned Result.zero (some .startStreamNoSuccess)⟩
          else if t.checkInterval ≤ 0 then
            ⟨t, [alert, act], .panicked "non-positive interval for NewTicker"⟩
          else
            match pollLoop t it.polls with
            | (acts, .cancelled) =>
              ⟨t, alert :: act :: acts, .returned Result.zero (some .contextCancelled)⟩
            | (acts, .failed err) =>
              ⟨t, alert :: act :: acts, .returned Result.zero (some (.getStatsFailed err))⟩
            | (acts, .blocked) => ⟨t, alert :: act :: acts, .pending⟩
            | (acts, .finished s) =>
              (runLoop w t true NumStreams s rest).after (alert :: act :: acts)
    else
      ⟨{ t with done := true }, [], .returned ⟨NumStreams, some stats⟩ none⟩

/-- The method `Tester.Run`. -/
def Run (w : Nat) (t : Tester) (script : List IterScript) : Final :=
  let NumStreams := t.numStreamsInit
  let t := { t with done := false }
  let NumStreams :=
    if t.numStreamsInit > t.numStreamsStep then t.numStreamsInit - t.numStreamsStep
    else NumStreams
  runLoop w t false NumStreams Stats.zero script

/-! ## Reading scripts and traces -/

/-- The stream count of a start request, for a start action. -/
def Action.level? : Action → Option Nat
  | .startStreams _ req _ => some req.Simultaneous
  | _ => none

/-- The concurrency levels passed to the successive start calls of a trace. -/
def startLevels (trace : List Action) : List Nat := trace.filterMap Action.level?

/-- A wake-up of the polling `select` that is a tick whose stats call decodes
a snapshot with `finished = false`. -/
def Unfinished (e : SelectEvent) : Prop :=
  ∃ u : Stats, e = .tick (.decoded u) ∧ u.Finished = false

/-- The polling loop receives `s` as its first finished snapshot: before it,
only ticks with unfinished snapshots. -/
def Receives (polls : List SelectEvent) (s : Stats) : Prop :=
  ∃ us rest, polls = us ++ .tick (.decoded s) :: rest ∧ s.Finished = true ∧
    ∀ e ∈ us, Unfinished e

/-- The iteration gets as far as polling: no cancellation at the check, the
start call decodes a response with `success = true`, and the ticker can be
created (`time.NewTicker` panics on a non-positive interval). -/
def Polls (interval : Int) (it : IterScript) : Prop :=
  it.cancelled = false ∧ (∃ resp, it.startReply = .decoded resp ∧ resp.Success = true) ∧
    0 < interval

/-- The iteration runs to its final snapshot `s` with no error and no cancellation. -/
def Completes (interval : Int) (it : IterScript) (s : Stats) : Prop :=
  Polls interval it ∧ Receives it.polls s

/-- The iteration completes and its final snapshot lets the loop go on. -/
def Continues (min : Float64) (interval : Int) (it : IterScript) : Prop :=
  ∃ s, Completes interval it s ∧ Float64.gt s.SuccessRate min = true

/-- The level before the first `+ step`: what `Run` computes ahead of the loop. -/
def baseLevel (t : Tester) : Nat :=
  if t.numStreamsInit > t.numStreamsStep then t.numStreamsInit - t.numStreamsStep
  else t.numStreamsInit

/-- The ways an iteration ends `Run` with an error: cancellation seen at the
check before the start call, a start call that errors, a start response with
`success = false`, cancellation seen by the polling `select` after unfinished
snapshots only, a stats call that errors after unfinished snapshots only. -/
inductive Aborts (interval : Int) (it : IterScript) : RunError → Prop where
  | cancelledAtCheck : it.cancelled = true → Aborts interval it .contextCancelled
  | startError (err : String) : it.cancelled = false → it.startReply = .failure err →
      Aborts interval it (.startStreamFailed err)
  | startNoSuccess (resp : StartStreamsRes) : it.cancelled = false →
      it.startReply = .decoded resp → resp.Success = false →
      Aborts interval it .startStreamNoSuccess
  | cancelledPolling (us rest : List SelectEvent) : Polls interval it →
      it.polls = us ++ .ctxDone :: rest → (∀ e ∈ us, Unfinished e) →
      Aborts interval it .contextCancelled
  | statsError (us rest : List SelectEvent) (err : String) : Polls interval it →
      it.polls = us ++ .tick (.failure err) :: rest → (∀ e ∈ us, Unfinished e) →
      Aborts interval it (.getStatsFailed err)

/-- A remote call that failed: a start call that errors or whose response has
`success = false`, a stats call that errors. -/
def Action.failed : Action → Bool
  | .alert _ _ => false
  | .startStreams _ _ (.failure _) => true
  | .startStreams _ _ (.decoded resp) => !resp.Success
  | .getStats _ (.failure _) => true
  | .getStats _ (.decoded _) => false

/-- The batch identifier of a start call whose response was decoded. -/
def Action.decodedID? : Action → Option String
  | .startStreams _ _ (.decoded resp) => some resp.BaseManifestID
  | _ => none

/-- The batch identifier of the last start call of the trace whose response
was decoded, if there is one. -/
def lastDecodedID (trace : List Action) : Option String :=
  (trace.filterMap Action.decodedID?).getLast?

/-! ## `main` -/

/-- The command-line flags of `main` that reach the `Tester`, and the profile
count `main` passes on. -/
structure Flags where
  testerHost : String
  testerPort : Nat
  rtmpHost : String
  rtmpPort : Nat
  mediaHost : String
  mediaPort : Nat
  statsIntervalSec : Int
  minSuccessRate : Float64
  numProfiles : Nat
  numStreamsInit : Nat
  numStreamsStep : Nat
  deriving DecidableEq, Repr

/-- The default values of the flags. -/
def defaultFlags : Flags :=
  { testerHost := "streamtester"
    testerPort := 7934
    rtmpHost := "broadcaster"
    rtmpPort := 1935
    mediaHost := "broadcaster"
    mediaPort := 8935
    statsIntervalSec := 10
    minSuccessRate := .finite 99
    numProfiles := 1
    numStreamsInit := 1
    numStreamsStep := 1 }

/-- The `Tester` that `main` builds: `statsInterval` is
`time.Duration(*statsIntervalSec) * time.Second`, an `int64` product. -/
def mainTester (f : Flags) : Tester :=
  NewTester f.testerHost f.rtmpHost f.mediaHost f.testerPort f.rtmpPort f.mediaPort
    (Int.bmod (f.statsIntervalSec * 1000000000) (2 ^ 64)) f.minSuccessRate
    f.numStreamsInit f.numStreamsStep

/-! ## Sample inputs -/

/-- A tester with `init = 5`, `step = 2`, `minSuccessRate = 95.0`. -/
def rampTester : Tester :=
  NewTester "streamtester" "broadcaster" "broadcaster" 7934 1935 8935 10000000000
    (.finite 95) 5 2

/-- A tester whose initial level is the largest 64-bit `uint`. -/
def wrapTester : Tester :=
  NewTester "streamtester" "broadcaster" "broadcaster" 7934 1935 8935 10000000000
    (.finite 95) (2 ^ 64 - 1) 1

/-- An iteration whose start succeeds with batch `id` and whose first poll
finds the batch finished with the given success rate. -/
def finishing (id : String) (rate : ℚ) : IterScript :=
  ⟨false, .decoded ⟨true, id⟩, [.tick (.decoded ⟨true, rate⟩)]⟩

/-- An iteration whose start succeeds and whose first stats call fails. -/
def statsFailing : IterScript :=
  ⟨false, .decoded ⟨true, "batch-2"⟩, [.tick (.failure "timeout")]⟩

/-- An iteration whose start response is decoded with `success = false`. -/
def refused : IterScript :=
  ⟨false, .decoded ⟨false, "batch-x"⟩, []⟩

/-- An iteration that is cancelled at the check before the start call. -/
def cancelledFirst : IterScript :=
  ⟨true, .failure "", []⟩

/-- An iteration whose polls see an unfinished snapshot with success rate 0,
then the cancellation. -/
def cancelledPolling : IterScript :=
  ⟨false, .decoded ⟨true, "batch-3"⟩, [.tick (.decoded ⟨false, 0⟩), .ctxDone]⟩

end Concurrence

namespace Concurrence

/-! ## Lemmas on the two loops -/

theorem Float64.gt_of_le_false {x : ℚ} {m : Float64} (h : Float64.le x m = false)
    (hm : m ≠ .NaN) : Float64.gt x m = true := by
  cases m <;> simp_all [Float64.le, Float64.gt]

theorem Float64.gt_false_of_le {x : ℚ} {m : Float64} (h : Float64.le x m = true) :
    Float64.gt x m = false := by
  cases m <;> simp_all [Float64.le, Float64.gt]

theorem Float64.ne_NaN_of_le {x : ℚ} {m : Float64} (h : Float64.le x m = true) :
    m ≠ .NaN := by
  cases m <;> simp_all [Float64.le]

theorem startLevels_nil : startLevels [] = [] := rfl

theorem startLevels_append (a b : List Action) :
    startLevels (a ++ b) = startLevels a ++ startLevels b := by
  simp [startLevels, List.filterMap_append]

theorem startLevels_pollLoop (t : Tester) (evs : List SelectEvent) :
    startLevels (pollLoop t evs).1 = [] := by
  induction evs with
  | nil => simp [pollLoop, startLevels]
  | cons e rest ih =>
    cases e with
    | ctxDone => simp [pollLoop, startLevels]
    | tick reply =>
      cases reply with
      | failure err => simp [pollLoop, stats, startLevels, Action.level?]
      | decoded s =>
        by_cases hs : s.Finished = true
        · simp [pollLoop, stats, startLevels, Action.level?, hs]
        · simp only [pollLoop, stats, hs]
          simpa [startLevels, Action.level?] using ih

theorem pollLoop_skip (t : Tester) (us tl : List SelectEvent)
    (hus : ∀ e ∈ us, Unfinished e) : (pollLoop t (us ++ tl)).2 = (pollLoop t tl).2 := by
  induction us with
  | nil => rfl
  | cons e rest ih =>
    obtain ⟨u, rfl, hu⟩ := hus e (List.mem_cons_self _ _)
    have ih' := ih (fun e he => hus e (List.mem_cons_of_mem _ he))
    simp only [List.cons_append, pollLoop, stats, hu]
    simpa using ih'

theorem pollLoop_receives (t : Tester) (polls : List SelectEvent) (s : Stats)
    (h : Receives polls s) : (pollLoop t polls).2 = .finished s := by
  obtain ⟨us, rest, rfl, hs, hus⟩ := h
  rw [pollLoop_skip t us _ hus]
  simp [pollLoop, stats, hs]

@[simp] theorem Final.after_outcome (acts : List Action) (f : Final) :
    (f.after acts).outcome = f.outcome := rfl

@[simp] theorem Final.after_trace (acts : List Action) (f : Final) :
    (f.after acts).trace = acts ++ f.trace := rfl

@[simp] theorem Final.after_tester (acts : List Action) (f : Final) :
    (f.after acts).tester = f.tester := rfl

theorem Final.after_after (a b : List Action) (f : Final) :
    (f.after b).after a = f.after (a ++ b) := by
  simp [Final.after]

theorem Final.after_nil (f : Final) : f.after [] = f := rfl

/-- One completing iteration: the loop goes round once. -/
theorem runLoop_completes (w : Nat) (t : Tester) (started : Bool) (n : Nat) (st : Stats)
    (it : IterScript) (rest : List IterScript) (s : Stats)
    (hc : (!started || Float64.gt st.SuccessRate t.minSuccessRate) = true)
    (h : Completes t.checkInterval it s) :
    ∃ id acts, runLoop w t started n st (it :: rest)
        = (runLoop w { t with baseManifestID := id } true
            ((n + t.numStreamsStep) % 2 ^ w) s rest).after acts
      ∧ startLevels acts = [(n + t.numStreamsStep) % 2 ^ w] := by
  obtain ⟨⟨hcan, ⟨resp, hresp, hsucc⟩, hint⟩, hrec⟩ := h
  have hp := pollLoop_receives { t with baseManifestID := resp.BaseManifestID } it.polls s hrec
  refine ⟨resp.BaseManifestID,
    Action.alert "begin iteration: " ⟨(n + t.numStreamsStep) % 2 ^ w, some st⟩ ::
      Action.startStreams (startURL t) (startStreamReq t ((n + t.numStreamsStep) % 2 ^ w))
        (.decoded resp) ::
      (pollLoop { t with baseManifestID := resp.BaseManifestID } it.polls).1, ?_, ?_⟩
  · rw [runLoop, if_pos hc]
    simp only [hcan, start, hresp, hsucc]
    have hint' : ¬ t.checkInterval ≤ 0 := not_le.mpr hint
    simp only [Bool.false_eq_true, if_false, Bool.not_true, hint']
    generalize pollLoop { t with baseManifestID := resp.BaseManifestID } it.polls = q at hp
    obtain ⟨acts, o⟩ := q
    simp only at hp
    subst hp
    rfl
  · have := startLevels_pollLoop { t with baseManifestID := resp.BaseManifestID } it.polls
    simp only [startLevels] at this ⊢
    simp [List.filterMap_cons, Action.level?, startStreamReq, this]

/-- A run of continuing iterations: the loop goes round once for each. -/
theorem runLoop_continuing (w : Nat) (pre : List IterScript) :
    ∀ (t : Tester) (started : Bool) (n : Nat) (st : Stats),
      (!started || Float64.gt st.SuccessRate t.minSuccessRate) = true →
      (∀ i ∈ pre, Continues t.minSuccessRate t.checkInterval i) →
      ∀ rest, ∃ id started' n' st' acts,
        runLoop w t started n st (pre ++ rest)
          = (runLoop w { t with baseManifestID := id } started' n' st' rest).after acts
        ∧ (!started' || Float64.gt st'.SuccessRate t.minSuccessRate) = true
        ∧ n' % 2 ^ w = (n + pre.length * t.numStreamsStep) % 2 ^ w
        ∧ (startLevels acts).length = pre.length := by
  induction pre with
  | nil =>
    intro t started n st hc _ rest
    exact ⟨t.baseManifestID, started, n, st, [], by simp [Final.after_nil], hc, by simp,
      by simp [startLevels]⟩
  | cons it pre ih =>
    intro t started n st hc hpre rest
    obtain ⟨s, hs, hgt⟩ := hpre it (List.mem_cons_self _ _)
    obtain ⟨id1, acts1, h1, hl1⟩ := runLoop_completes w t started n st it (pre ++ rest) s hc hs
    obtain ⟨id2, started', n', st', acts2, h2, hc2, hn2, hl2⟩ :=
      ih { t with baseManifestID := id1 } true ((n + t.numStreamsStep) % 2 ^ w) s
        (by simpa using hgt) (fun i hi => hpre i (List.mem_cons_of_mem _ hi)) rest
    refine ⟨id2, started', n', st', acts1 ++ acts2, ?_, hc2, ?_, ?_⟩
    · rw [List.cons_append, h1, h2, Final.after_after]
    · rw [hn2]
      simp only [List.length_cons, Nat.mod_add_mod]
      congr 1
      ring
    · simp [startLevels_append, hl1, hl2]

/-- When the loop condition fails the loop is left and `Run` returns. -/
theorem runLoop_exit (w : Nat) (t : Tester) (started : Bool) (n : Nat) (st : Stats)
    (script : List IterScript)
    (hc : (!started || Float64.gt st.SuccessRate t.minSuccessRate) = false) :
    runLoop w t started n st script
      = ⟨{ t with done := true }, [], .returned ⟨n, some st⟩ none⟩ := by
  cases script <;> simp [runLoop, hc]

theorem Run_eq (w : Nat) (t : Tester) (script : List IterScript) :
    Run w t script
      = runLoop w { t with done := false } false (baseLevel t) Stats.zero script := rfl

/-! ## The claims -/

/-- C1: when the iterations before `it` all run to a final (finished) snapshot
whose success rate is not `<= minSuccessRate`, with no call error, no
cancellation and every start reporting success, and `it` runs to a final
snapshot `s` whose success rate is `<= minSuccessRate`, then `Run` returns
without error, its result holds the snapshot `s` and the concurrency level of
that iteration (the level of the last start call, `base + k * step` modulo
`2 ^ w` for the `k`-th iteration), and exactly as many start calls were issued
as there are iterations up to and including `it`: it returned at that
iteration and at no earlier one (after the earlier iterations alone `Run` has
not returned). -/
theorem Run_returns_at_first_degradation (w : Nat) (t : Tester)
    (pre : List IterScript) (it : IterScript) (post : List IterScript) (s : Stats)
    (hpre : ∀ i ∈ pre, ∃ si, Completes t.checkInterval i si ∧
      Float64.le si.SuccessRate t.minSuccessRate = false)
    (hit : Completes t.checkInterval it s)
    (hle : Float64.le s.SuccessRate t.minSuccessRate = true) :
    (Run w t (pre ++ it :: post)).outcome
        = .returned ⟨(baseLevel t + (pre.length + 1) * t.numStreamsStep) % 2 ^ w, some s⟩ none
      ∧ (startLevels (Run w t (pre ++ it :: post)).trace).length = pre.length + 1
      ∧ (startLevels (Run w t (pre ++ it :: post)).trace).getLast?
        = some ((baseLevel t + (pre.length + 1) * t.numStreamsStep) % 2 ^ w)
      ∧ (Run w t pre).outcome = .pending := by
  have hnan := Float64.ne_NaN_of_le hle
  have hpre' : ∀ i ∈ pre, Continues t.minSuccessRate t.checkInterval i := by
    intro i hi
    obtain ⟨si, hsi, hnle⟩ := hpre i hi
    exact ⟨si, hsi, Float64.gt_of_le_false hnle hnan⟩
  obtain ⟨id, started', n', st', acts, h1, hc1, hn1, hl1⟩ :=
    runLoop_continuing w pre { t with done := false } false (baseLevel t) Stats.zero
      (by simp) hpre' (it :: post)
  obtain ⟨id2, acts2, h2, hl2⟩ :=
    runLoop_completes w { t with baseManifestID := id, done := false } started' n' st' it post s
      hc1 hit
  have h3 := runLoop_exit w { t with baseManifestID := id2, done := false } true
    ((n' + t.numStreamsStep) % 2 ^ w) s post
    (by simpa using Float64.gt_false_of_le hle)
  have hlev : (n' + t.numStreamsStep) % 2 ^ w
      = (baseLevel t + (pre.length + 1) * t.numStreamsStep) % 2 ^ w := by
    rw [← Nat.mod_add_mod, hn1, Nat.mod_add_mod]
    congr 1
    ring
  have hpend : (Run w t pre).outcome = .pending := by
    obtain ⟨id0, started0, n0, st0, acts0, h0, hc0, -, -⟩ :=
      runLoop_continuing w pre { t with done := false } false (baseLevel t) Stats.zero
        (by simp) hpre' []
    rw [List.append_nil] at h0
    rw [Run_eq, h0, Final.after_outcome, runLoop, if_pos hc0]
  rw [Run_eq, h1, h2, h3]
  refine ⟨?_, ?_, ?_, hpend⟩
  · simp [hlev]
  · simp [startLevels_append, startLevels_nil, hl1, hl2]
  · simp [startLevels_append, startLevels_nil, hl2, hlev]

theorem completes_finishing (interval : Int) (h : 0 < interval) (id : String) (rate : ℚ) :
    Completes interval (finishing id rate) ⟨true, rate⟩ :=
  ⟨⟨rfl, ⟨⟨true, id⟩, rfl, rfl⟩, h⟩, [], [], rfl, rfl, by simp⟩

/-- C1, at `init = 5`, `step = 2`, `min = 95.0` and final snapshots `100.0` then
`90.0`: the result is level 7 with success rate `90.0`, after two start calls. -/
theorem Run_returns_at_first_degradation_witness :
    (Run 64 rampTester [finishing "batch-1" 100, finishing "batch-2" 90]).outcome
        = .returned ⟨7, some ⟨true, 90⟩⟩ none
      ∧ (startLevels
          (Run 64 rampTester [finishing "batch-1" 100, finishing "batch-2" 90]).trace).length = 2
      ∧ (startLevels
          (Run 64 rampTester [finishing "batch-1" 100, finishing "batch-2" 90]).trace).getLast?
        = some 7
      ∧ (Run 64 rampTester [finishing "batch-1" 100]).outcome = .pending :=
  Run_returns_at_first_degradation 64 rampTester [finishing "batch-1" 100]
    (finishing "batch-2" 90) [] ⟨true, 90⟩
    (by
      intro i hi
      rw [List.mem_singleton] at hi
      subst hi
      exact ⟨⟨true, 100⟩, completes_finishing _ (by decide) _ _, by decide⟩)
    (completes_finishing _ (by decide) _ _) (by decide)

/-- The trace of an iteration that is not cancelled starts with the alert and
the start call for the next level. -/
theorem runLoop_trace_head (w : Nat) (t : Tester) (started : Bool) (n : Nat) (st : Stats)
    (it : IterScript) (rest : List IterScript)
    (hc : (!started || Float64.gt st.SuccessRate t.minSuccessRate) = true)
    (hcan : it.cancelled = false) :
    ∃ tl, (runLoop w t started n st (it :: rest)).trace
      = Action.alert "begin iteration: " ⟨(n + t.numStreamsStep) % 2 ^ w, some st⟩ ::
        Action.startStreams (startURL t) (startStreamReq t ((n + t.numStreamsStep) % 2 ^ w))
          it.startReply :: tl := by
  rw [runLoop, if_pos hc]
  simp only [hcan, start]
  cases it.startReply with
  | failure err => exact ⟨[], rfl⟩
  | decoded resp =>
    simp only [Bool.false_eq_true, if_false]
    split
    · exact ⟨[], rfl⟩
    · split
      · exact ⟨[], rfl⟩
      · split <;> exact ⟨_, rfl⟩

/-- C2: the concurrency level passed to the first start call of `Run` is
`init` when `init > step` and `init + step` (Go `uint` addition, modulo
`2 ^ w`) when `init <= step`; there is a first start call exactly when the
first iteration is not cancelled at its check. -/
theorem Run_first_level (w : Nat) (t : Tester) (script : List IterScript)
    (hinit : t.numStreamsInit < 2 ^ w) :
    (startLevels (Run w t script).trace).head?
      = match script with
        | [] => none
        | it :: _ =>
          if it.cancelled then none
          else some (if t.numStreamsInit > t.numStreamsStep then t.numStreamsInit
            else (t.numStreamsInit + t.numStreamsStep) % 2 ^ w) := by
  cases script with
  | nil => simp [Run, runLoop, startLevels]
  | cons it rest =>
    by_cases hcan : it.cancelled = true
    · simp [Run, runLoop, startLevels, hcan, Action.level?]
    · have hcan' : it.cancelled = false := by simpa using hcan
      obtain ⟨tl, htl⟩ := runLoop_trace_head w { t with done := false } false (baseLevel t)
        Stats.zero it rest (by simp) hcan'
      rw [Run_eq, htl]
      simp only [startLevels, List.filterMap_cons, Action.level?, List.head?_cons, hcan',
        startStreamReq, Bool.false_eq_true, if_false, baseLevel]
      congr 1
      split
      · next h =>
        rw [Nat.sub_add_cancel (Nat.le_of_lt h), Nat.mod_eq_of_lt hinit]
      · rfl

/-- C2, at the default flags `init = 1`, `step = 1`: the first start call asks
for 2 streams. -/
theorem Run_first_level_witness :
    (startLevels (Run 64 (mainTester defaultFlags)
        [finishing "batch-1" 100, finishing "batch-2" 80]).trace).head? = some 2 :=
  Run_first_level 64 (mainTester defaultFlags)
    [finishing "batch-1" 100, finishing "batch-2" 80] (by decide)

/-- From any loop state with level `n`, the levels of the start calls go from
`n` in steps of `step`, modulo `2 ^ w`. -/
theorem runLoop_levels_chain (w : Nat) (step : Nat) (script : List IterScript) :
    ∀ (t : Tester) (started : Bool) (n : Nat) (st : Stats), t.numStreamsStep = step →
      List.Chain (fun a b => b = (a + step) % 2 ^ w) n
        (startLevels (runLoop w t started n st script).trace) := by
  induction script with
  | nil =>
    intro t started n st _
    rw [runLoop]
    split <;> exact List.Chain.nil
  | cons it rest ih =>
    intro t started n st hstep
    rw [runLoop]
    split
    · simp only [start]
      split
      · exact List.Chain.nil
      · cases it.startReply with
        | failure err =>
          simp only [startLevels, List.filterMap_cons, Action.level?, startStreamReq,
            List.filterMap_nil, hstep]
          exact List.Chain.cons rfl List.Chain.nil
        | decoded resp =>
          have hp := startLevels_pollLoop { t with baseManifestID := resp.BaseManifestID } it.polls
          simp only
          split
          · simp only [startLevels, List.filterMap_cons, Action.level?, startStreamReq,
              List.filterMap_nil, hstep]
            exact List.Chain.cons rfl List.Chain.nil
          · split
            · simp only [startLevels, List.filterMap_cons, Action.level?, startStreamReq,
                List.filterMap_nil, hstep]
              exact List.Chain.cons rfl List.Chain.nil
            · split
              all_goals
                rename_i heq
                rw [heq] at hp
                simp only [startLevels] at hp
                simp only [Final.after_trace, startLevels, List.cons_append,
                  List.filterMap_cons, Action.level?, startStreamReq, List.filterMap_append, hp,
                  List.nil_append, List.filterMap_nil, hstep]
              · exact List.Chain.cons rfl List.Chain.nil
              · exact List.Chain.cons rfl List.Chain.nil
              · exact List.Chain.cons rfl List.Chain.nil
              · exact List.Chain.cons rfl (ih _ _ _ _ rfl)
    · exact List.Chain.nil

/-- C3, as amended: the levels passed to successive start calls of `Run` go up
by `step` modulo `2 ^ w`: each level is the one before plus `step` modulo
`2 ^ w`, and with a positive step it is strictly greater than the one before
whenever that sum does not wrap around (is below `2 ^ w`). -/
theorem Run_levels_step (w : Nat) (t : Tester) (script : List IterScript)
    (hstep : 0 < t.numStreamsStep) :
    List.Chain' (fun a b => b = (a + t.numStreamsStep) % 2 ^ w ∧
        (a + t.numStreamsStep < 2 ^ w → a < b))
      (startLevels (Run w t script).trace) := by
  have h := runLoop_levels_chain w t.numStreamsStep script { t with done := false } false
    (baseLevel t) Stats.zero rfl
  rw [Run_eq]
  have h' : List.Chain' (fun a b => b = (a + t.numStreamsStep) % 2 ^ w)
      (baseLevel t :: startLevels
        (runLoop w { t with done := false } false (baseLevel t) Stats.zero script).trace) := h
  refine List.Chain'.imp ?_ h'.tail
  intro a b hab
  refine ⟨hab, fun hlt => ?_⟩
  rw [hab, Nat.mod_eq_of_lt hlt]
  omega

/-- C3 as amended, at `init = 5`, `step = 2`. -/
theorem Run_levels_step_witness :
    List.Chain' (fun a b => b = (a + 2) % 2 ^ 64 ∧ (a + 2 < 2 ^ 64 → a < b))
      (startLevels (Run 64 rampTester
        [finishing "batch-1" 100, finishing "batch-2" 90]).trace) :=
  Run_levels_step 64 rampTester [finishing "batch-1" 100, finishing "batch-2" 90]
    (by decide)

/-- C3 as stated fails: with `init = 2 ^ 64 - 1`, `step = 1` on a 64-bit
platform the second start call asks for 0 streams, which is not greater than
the first level `2 ^ 64 - 1`. -/
theorem Run_levels_not_increasing :
    0 < wrapTester.numStreamsStep ∧
    startLevels (Run 64 wrapTester
        [finishing "batch-1" 100, finishing "batch-2" 100]).trace
      = [2 ^ 64 - 1, 0] ∧
    ¬ List.Chain' (fun a b => b = (a + wrapTester.numStreamsStep) % 2 ^ 64 ∧ a < b)
      (startLevels (Run 64 wrapTester
        [finishing "batch-1" 100, finishing "batch-2" 100]).trace) := by
  have hl : startLevels (Run 64 wrapTester
      [finishing "batch-1" 100, finishing "batch-2" 100]).trace = [2 ^ 64 - 1, 0] := by
    decide
  refine ⟨by decide, hl, ?_⟩
  rw [hl, List.chain'_pair]
  intro h
  exact Nat.not_lt_zero _ h.2

/-- An iteration that aborts ends the loop with that error and `&Result{}`. -/
theorem runLoop_aborts (w : Nat) (t : Tester) (started : Bool) (n : Nat) (st : Stats)
    (it : IterScript) (rest : List IterScript) (e : RunError)
    (hc : (!started || Float64.gt st.SuccessRate t.minSuccessRate) = true)
    (hab : Aborts t.checkInterval it e) :
    (runLoop w t started n st (it :: rest)).outcome = .returned Result.zero (some e) := by
  rw [runLoop, if_pos hc]
  cases hab with
  | cancelledAtCheck hcan => simp [hcan]
  | startError err hcan hreply => simp [hcan, start, hreply]
  | startNoSuccess resp hcan hreply hs => simp [hcan, start, hreply, hs]
  | cancelledPolling us tl hp hpolls hus =>
    obtain ⟨hcan, ⟨resp, hreply, hs⟩, hint⟩ := hp
    have hq := pollLoop_skip { t with baseManifestID := resp.BaseManifestID } us
      (.ctxDone :: tl) hus
    rw [← hpolls] at hq
    simp only [hcan, start, hreply, hs, not_le.mpr hint, Bool.false_eq_true, if_false,
      Bool.not_true]
    generalize pollLoop { t with baseManifestID := resp.BaseManifestID } it.polls = q at hq
    obtain ⟨acts, o⟩ := q
    simp only [pollLoop] at hq
    subst hq
    rfl
  | statsError us tl err hp hpolls hus =>
    obtain ⟨hcan, ⟨resp, hreply, hs⟩, hint⟩ := hp
    have hq := pollLoop_skip { t with baseManifestID := resp.BaseManifestID } us
      (.tick (.failure err) :: tl) hus
    rw [← hpolls] at hq
    simp only [hcan, start, hreply, hs, not_le.mpr hint, Bool.false_eq_true, if_false,
      Bool.not_true]
    generalize pollLoop { t with baseManifestID := resp.BaseManifestID } it.polls = q at hq
    obtain ⟨acts, o⟩ := q
    simp only [pollLoop, stats] at hq
    subst hq
    rfl

/-- After continuing iterations, an aborting one ends `Run` with its error. -/
theorem Run_aborts (w : Nat) (t : Tester) (pre : List IterScript) (it : IterScript)
    (post : List IterScript) (e : RunError)
    (hpre : ∀ i ∈ pre, Continues t.minSuccessRate t.checkInterval i)
    (hab : Aborts t.checkInterval it e) :
    (Run w t (pre ++ it :: post)).outcome = .returned Result.zero (some e) := by
  obtain ⟨id, started', n', st', acts, h1, hc1, -, -⟩ :=
    runLoop_continuing w pre { t with done := false } false (baseLevel t) Stats.zero
      (by simp) hpre (it :: post)
  rw [Run_eq, h1, Final.after_outcome]
  exact runLoop_aborts w _ started' n' st' it post e hc1 hab

/-- A failed stats call in the trace of the polling loop ends the loop. -/
theorem pollLoop_failed (t : Tester) (evs : List SelectEvent) :
    (∃ a ∈ (pollLoop t evs).1, a.failed = true) → ∃ err, (pollLoop t evs).2 = .failed err := by
  induction evs with
  | nil => simp [pollLoop]
  | cons ev rest ih =>
    cases ev with
    | ctxDone => simp [pollLoop]
    | tick reply =>
      cases reply with
      | failure err => simp [pollLoop, stats]
      | decoded s =>
        by_cases hs : s.Finished = true
        · simp [pollLoop, stats, hs, Action.failed]
        · simp only [pollLoop, stats, hs]
          simpa [Action.failed] using ih

/-- Whenever the loop returns an error the result is `&Result{}`, and a failed
remote call in the trace makes the loop return an error. -/
theorem runLoop_error_zero (w : Nat) (script : List IterScript) :
    ∀ (t : Tester) (started : Bool) (n : Nat) (st : Stats),
      (∀ r e, (runLoop w t started n st script).outcome = .returned r (some e) →
        r = Result.zero) ∧
      ((∃ a ∈ (runLoop w t started n st script).trace, a.failed = true) →
        ∃ e, (runLoop w t started n st script).outcome = .returned Result.zero (some e)) := by
  induction script with
  | nil =>
    intro t started n st
    rw [runLoop]
    split <;> simp
  | cons it rest ih =>
    intro t started n st
    rw [runLoop]
    split
    · simp only [start]
      split
      · simp [Action.failed]
      · cases it.startReply with
        | failure err => simp
        | decoded resp =>
          have hp := pollLoop_failed { t with baseManifestID := resp.BaseManifestID } it.polls
          simp only
          split
          · simp
          · rename_i hsucc
            have hsucc' : resp.Success = true := by simpa using hsucc
            split
            · simp [Action.failed, hsucc']
            · split
              all_goals
                rename_i heq
                rw [heq] at hp
                simp only [exists_eq_right] at hp
              · simp
              · simp
              · refine ⟨by simp, ?_⟩
                rintro ⟨a, ha, hf⟩
                simp only [List.mem_cons] at ha
                rcases ha with rfl | rfl | ha
                · simp [Action.failed] at hf
                · simp [Action.failed, hsucc'] at hf
                · exact absurd (hp ⟨a, ha, hf⟩) (by simp)
              · rename_i s
                have ih' := ih { t with baseManifestID := resp.BaseManifestID } true
                  ((n + t.numStreamsStep) % 2 ^ w) s
                refine ⟨ih'.1, ?_⟩
                rintro ⟨a, ha, hf⟩
                simp only [Final.after_trace, List.cons_append, List.mem_cons,
                  List.mem_append] at ha
                rcases ha with rfl | rfl | ha | ha
                · simp [Action.failed] at hf
                · simp [Action.failed, hsucc'] at hf
                · exact absurd (hp ⟨a, ha, hf⟩) (by simp)
                · exact ih'.2 ⟨a, ha, hf⟩
    · simp

theorem continues_finishing (min : Float64) (interval : Int) (h : 0 < interval) (id : String)
    (rate : ℚ) (hr : Float64.gt rate min = true) :
    ∀ i ∈ [finishing id rate], Continues min interval i := by
  intro i hi
  rw [List.mem_singleton] at hi
  subst hi
  exact ⟨⟨true, rate⟩, completes_finishing interval h id rate, hr⟩

/-- C4: when the iterations before `it` all continue and `it` aborts with the
error `e` (cancellation seen at the check or while polling, a start call that
errors, a start response with `success = false`, a stats call that errors),
`Run` returns `e` together with the zero-value `Result`; on every script an
error is only ever returned together with the zero-value `Result`; and on
every script whose trace holds a failed remote call `Run` returns an error
with the zero-value `Result`, never a populated one. -/
theorem Run_abort_zero_result (w : Nat) (t : Tester) (pre : List IterScript)
    (it : IterScript) (post : List IterScript) (e : RunError)
    (hpre : ∀ i ∈ pre, Continues t.minSuccessRate t.checkInterval i)
    (hab : Aborts t.checkInterval it e) :
    (Run w t (pre ++ it :: post)).outcome = .returned Result.zero (some e)
      ∧ Result.zero = ⟨0, none⟩
      ∧ (∀ script r e', (Run w t script).outcome = .returned r (some e') → r = Result.zero)
      ∧ (∀ script, (∃ a ∈ (Run w t script).trace, a.failed = true) →
          ∃ e', (Run w t script).outcome = .returned Result.zero (some e')) :=
  ⟨Run_aborts w t pre it post e hpre hab, rfl,
    fun script => (runLoop_error_zero w script _ false (baseLevel t) Stats.zero).1,
    fun script => (runLoop_error_zero w script _ false (baseLevel t) Stats.zero).2⟩

/-- C4, when the stats call fails on the first poll tick of iteration 2: the
error is "get stats failed" and the result is empty. -/
theorem Run_abort_zero_result_witness :
    (Run 64 rampTester [finishing "batch-1" 100, statsFailing]).outcome
        = .returned ⟨0, none⟩ (some (.getStatsFailed "timeout"))
      ∧ (RunError.getStatsFailed "timeout").message = "get stats failed: timeout" :=
  ⟨(Run_abort_zero_result 64 rampTester [finishing "batch-1" 100] statsFailing []
      (.getStatsFailed "timeout")
      (continues_finishing _ _ (by decide) _ _ (by decide))
      (Aborts.statsError [] [] "timeout" ⟨rfl, ⟨⟨true, "batch-2"⟩, rfl, rfl⟩, by decide⟩ rfl
        (by simp))).1,
    by decide⟩

/-- C5: when the cancellation is already signalled at the first check, `Run`
returns the cancellation error with the zero-value `Result`, and all it has
done is the one "begin iteration" alert: no start call, no stats call (the
tester is left with `done = false` and its batch identifier untouched). -/
theorem Run_cancelled_before_start (w : Nat) (t : Tester) (it : IterScript)
    (rest : List IterScript) (hcan : it.cancelled = true) :
    Run w t (it :: rest)
      = ⟨{ t with done := false },
          [Action.alert "begin iteration: "
            ⟨(baseLevel t + t.numStreamsStep) % 2 ^ w, some Stats.zero⟩],
          .returned Result.zero (some .contextCancelled)⟩ := by
  simp [Run_eq, runLoop, hcan]

/-- C5, at `init = 5`, `step = 2`: one alert for level 5 and nothing else. -/
theorem Run_cancelled_before_start_witness :
    Run 64 rampTester [cancelledFirst]
      = ⟨rampTester, [Action.alert "begin iteration: " ⟨5, some ⟨false, 0⟩⟩],
          .returned ⟨0, none⟩ (some .contextCancelled)⟩ :=
  Run_cancelled_before_start 64 rampTester cancelledFirst [] rfl

/-- C6: when the iterations before `it` all continue and the start call of
`it` decodes a response with `success = false`, `Run` returns the
start-failure error with the zero-value `Result`, the last thing it did is
that start call (no stats call after it, no further alert or start call), and
it issued one start call per iteration up to `it`. -/
theorem Run_start_refused (w : Nat) (t : Tester) (pre : List IterScript)
    (it : IterScript) (post : List IterScript) (resp : StartStreamsRes)
    (hpre : ∀ i ∈ pre, Continues t.minSuccessRate t.checkInterval i)
    (hcan : it.cancelled = false) (hreply : it.startReply = .decoded resp)
    (hs : resp.Success = false) :
    (Run w t (pre ++ it :: post)).outcome = .returned Result.zero (some .startStreamNoSuccess)
      ∧ (∃ url req, (Run w t (pre ++ it :: post)).trace.getLast?
          = some (Action.startStreams url req (.decoded resp)))
      ∧ (startLevels (Run w t (pre ++ it :: post)).trace).length = pre.length + 1 := by
  obtain ⟨id, started', n', st', acts, h1, hc1, -, hl1⟩ :=
    runLoop_continuing w pre { t with done := false } false (baseLevel t) Stats.zero
      (by simp) hpre (it :: post)
  have h2 : runLoop w { t with baseManifestID := id, done := false } started' n' st' (it :: post)
      = ⟨{ t with baseManifestID := resp.BaseManifestID, done := false },
          [Action.alert "begin iteration: " ⟨(n' + t.numStreamsStep) % 2 ^ w, some st'⟩,
           Action.startStreams (startURL { t with baseManifestID := id, done := false })
             (startStreamReq { t with baseManifestID := id, done := false }
               ((n' + t.numStreamsStep) % 2 ^ w)) (.decoded resp)],
          .returned Result.zero (some .startStreamNoSuccess)⟩ := by
    rw [runLoop, if_pos hc1]
    simp [hcan, start, hreply, hs]
  rw [Run_eq, h1, h2]
  refine ⟨rfl, ⟨startURL { t with baseManifestID := id, done := false },
    startStreamReq { t with baseManifestID := id, done := false }
      ((n' + t.numStreamsStep) % 2 ^ w), ?_⟩, ?_⟩
  · simp only [Final.after_trace]
    rw [List.getLast?_append_of_ne_nil _ (by simp)]
    rfl
  · simp [startLevels_append, hl1]
    simp [startLevels, Action.level?]

/-- C6, when the second start call is refused. -/
theorem Run_start_refused_witness :
    (Run 64 rampTester [finishing "batch-1" 100, refused]).outcome
        = .returned ⟨0, none⟩ (some .startStreamNoSuccess)
      ∧ (∃ url req, (Run 64 rampTester [finishing "batch-1" 100, refused]).trace.getLast?
          = some (Action.startStreams url req (.decoded ⟨false, "batch-x"⟩)))
      ∧ (startLevels (Run 64 rampTester [finishing "batch-1" 100, refused]).trace).length = 2 :=
  Run_start_refused 64 rampTester [finishing "batch-1" 100] refused [] ⟨false, "batch-x"⟩
    (continues_finishing _ _ (by decide) _ _ (by decide)) rfl rfl rfl

/-- C7: when the iterations before `it` all continue, `it` gets as far as
polling and its polls are ticks with unfinished snapshots (of any success
rate) and then the cancellation, `Run` returns the cancellation error with the
zero-value `Result`. -/
theorem Run_cancelled_while_polling (w : Nat) (t : Tester) (pre : List IterScript)
    (it : IterScript) (post : List IterScript) (us rest : List SelectEvent)
    (hpre : ∀ i ∈ pre, Continues t.minSuccessRate t.checkInterval i)
    (hp : Polls t.checkInterval it) (hpolls : it.polls = us ++ .ctxDone :: rest)
    (hus : ∀ e ∈ us, Unfinished e) :
    (Run w t (pre ++ it :: post)).outcome = .returned Result.zero (some .contextCancelled) :=
  Run_aborts w t pre it post .contextCancelled hpre
    (Aborts.cancelledPolling us rest hp hpolls hus)

/-- C7, with an unfinished snapshot of success rate 0 (below the minimum
`95.0`) before the cancellation in iteration 2. -/
theorem Run_cancelled_while_polling_witness :
    (Run 64 rampTester [finishing "batch-1" 100, cancelledPolling]).outcome
        = .returned ⟨0, none⟩ (some .contextCancelled) :=
  Run_cancelled_while_polling 64 rampTester [finishing "batch-1" 100] cancelledPolling []
    [.tick (.decoded ⟨false, 0⟩)] []
    (continues_finishing _ _ (by decide) _ _ (by decide))
    ⟨rfl, ⟨⟨true, "batch-3"⟩, rfl, rfl⟩, by decide⟩ rfl
    (by
      intro e he
      rw [List.mem_singleton] at he
      exact ⟨⟨false, 0⟩, he, rfl⟩)

/-- C8 fails on the code: after a run whose start succeeded and whose first
stats call failed, `Run` has returned its error and `IsRunning` still reports
a run in progress. -/
theorem IsRunning_after_failed_run :
    (Run 64 rampTester [statsFailing]).outcome
        = .returned ⟨0, none⟩ (some (.getStatsFailed "timeout"))
      ∧ IsRunning (Run 64 rampTester [statsFailing]).tester = true := by
  decide

theorem decodedID_pollLoop (t : Tester) (evs : List SelectEvent) :
    (pollLoop t evs).1.filterMap Action.decodedID? = [] := by
  induction evs with
  | nil => simp [pollLoop]
  | cons e rest ih =>
    cases e with
    | ctxDone => simp [pollLoop]
    | tick reply =>
      cases reply with
      | failure err => simp [pollLoop, stats, Action.decodedID?]
      | decoded s =>
        by_cases hs : s.Finished = true
        · simp [pollLoop, stats, Action.decodedID?, hs]
        · simp only [pollLoop, stats, hs]
          simpa [Action.decodedID?] using ih

/-- The batch identifier the loop leaves in the tester is the one of the last
decoded start response, or the one it began with. -/
theorem runLoop_manifestID (w : Nat) (script : List IterScript) :
    ∀ (t : Tester) (started : Bool) (n : Nat) (st : Stats),
      (runLoop w t started n st script).tester.baseManifestID
        = (lastDecodedID (runLoop w t started n st script).trace).getD t.baseManifestID := by
  induction script with
  | nil =>
    intro t started n st
    rw [runLoop]
    split <;> simp [lastDecodedID]
  | cons it rest ih =>
    intro t started n st
    rw [runLoop]
    split
    · simp only [start]
      split
      · simp [lastDecodedID, Action.decodedID?]
      · cases it.startReply with
        | failure err => simp [lastDecodedID, Action.decodedID?]
        | decoded resp =>
          have hp := decodedID_pollLoop { t with baseManifestID := resp.BaseManifestID } it.polls
          simp only
          split
          · simp [lastDecodedID, Action.decodedID?]
          · split
            · simp [lastDecodedID, Action.decodedID?]
            · split
              all_goals
                rename_i heq
                rw [heq] at hp
                simp only at hp
              · simp [lastDecodedID, Action.decodedID?, hp]
              · simp [lastDecodedID, Action.decodedID?, hp]
              · simp [lastDecodedID, Action.decodedID?, hp]
              · rename_i s
                have ih' := ih { t with baseManifestID := resp.BaseManifestID } true
                  ((n + t.numStreamsStep) % 2 ^ w) s
                simp only [Final.after_tester, Final.after_trace, lastDecodedID,
                  List.cons_append, List.filterMap_cons, Action.decodedID?,
                  List.filterMap_append, hp, List.nil_append, List.getLast?_cons,
                  Option.getD_some] at ih' ⊢
                exact ih'
    · simp [lastDecodedID]

/-- C9 as stated fails: a first start response decoded with `success = false`
and batch identifier "batch-x" leaves `GetManifestID` at "batch-x", not empty. -/
theorem GetManifestID_after_refused_start :
    GetManifestID rampTester = ""
      ∧ (Run 64 rampTester [refused]).outcome
        = .returned ⟨0, none⟩ (some .startStreamNoSuccess)
      ∧ GetManifestID (Run 64 rampTester [refused]).tester = "batch-x" := by
  decide

/-- C9, as amended: a new tester has the empty batch identifier; a start call
that errors leaves the identifier as it was, and a start call whose response
is decoded stores the identifier of that response, whatever its success flag;
after `Run` (returned or not) `GetManifestID` is the identifier of the last
start call of the run whose response was decoded, and the identifier from
before the run when there was none. -/
theorem GetManifestID_last_decoded (w : Nat) (t : Tester) (script : List IterScript) :
    (∀ host rtmpHost mediaHost port rtmpPort mediaPort interval min init step,
        GetManifestID (NewTester host rtmpHost mediaHost port rtmpPort mediaPort interval min
          init step) = "")
      ∧ (∀ n err, GetManifestID (start t n (.failure err)).1 = GetManifestID t)
      ∧ (∀ n resp, GetManifestID (start t n (.decoded resp)).1 = resp.BaseManifestID)
      ∧ GetManifestID (Run w t script).tester
        = (lastDecodedID (Run w t script).trace).getD (GetManifestID t) :=
  ⟨fun _ _ _ _ _ _ _ _ _ _ => rfl, fun _ _ => rfl, fun _ _ => rfl,
    runLoop_manifestID w script { t with done := false } false (baseLevel t) Stats.zero⟩

/-- C10 fails on the code: with the default flags (one profile configured)
the start request for level 1 has the claimed stream count, repeat count,
flags and asset name, and asks for 2 profiles. -/
theorem start_request_default_flags :
    defaultFlags.numProfiles = 1
      ∧ startStreamReq (mainTester defaultFlags) 1
        = { Host := "broadcaster"
            MHost := "broadcaster"
            FileName := "official_test_source_2s_keys_24pfs.mp4"
            RTMP := 1935
            Media := 8935
            Repeat := 1
            Simultaneous := 1
            ProfilesNum := 2
            MeasureLatency := false
            HTTPIngest := false } := by
  decide

end Concurrence
